import Mathlib

/-!
Verification of the agent-iteration core of the `genii` repository
(`src/unnamed/part_001`, the `codeAgentFunction` Inngest job): the
retrying terminal executor, the `writeFile` and `readFiles` tool
handlers, the `onResponse` termination detector, and the router-driven
iteration loop (`createNetwork` with `maxIter: 15`).

The embedding is shallow: the external sandbox is a parameter
(a function giving, per attempt or per path, the result or the thrown
error as a string), JavaScript truthiness on strings and numbers is
made explicit (`strOr`, `Option.getD`), and the shared mutable network
state is threaded explicitly. Waiting (`setTimeout`) and sandbox calls
are recorded in an event trace so that counting invocations and delays
is meaningful.
-/

/-! ## JavaScript-style helpers -/

/-- JavaScript `a || b` on strings: the empty string is falsy. -/
def strOr (a b : String) : String :=
  if a = "" then b else a

/-- Does the character list `pat` occur as a contiguous sublist of `l`?
Model of JavaScript `String.prototype.includes` on the char level. -/
def hasSubstrAux (pat : List Char) : List Char → Bool
  | [] => pat.isEmpty
  | c :: cs => pat.isPrefixOf (c :: cs) || hasSubstrAux pat cs

/-- JavaScript `s.includes(pat)`: case-sensitive substring containment. -/
def strIncludes (s pat : String) : Bool :=
  hasSubstrAux pat.toList s.toList

/-! ## Shared run state (`network.state.data`)

The JavaScript state object may be entirely absent (modelled by
`Option NetworkData`), and the `summary` and `iterations` fields may be
individually absent (`Option` fields), mirroring the `|| 0` and falsy
checks in the source. -/

/-- The files map is a JavaScript object: insertion-ordered keys,
assignment to an existing key updates in place. -/
def setFile : List (String × String) → String → String → List (String × String)
  | [], p, c => [(p, c)]
  | (q, v) :: rest, p, c =>
    if q = p then (q, c) :: rest else (q, v) :: setFile rest p c

/-- Lookup of a key in the files map (JavaScript property read). -/
def getFile : List (String × String) → String → Option String
  | [], _ => none
  | (q, v) :: rest, p => if q = p then some v else getFile rest p

/-- `network.state.data` of the code-agent network. -/
structure NetworkData where
  completed : Bool
  files : Option (List (String × String))
  summary : Option String
  iterations : Option Nat

/-! ## The terminal tool (retrying command executor), part_001 lines 34-85 -/

/-- Result of one sandbox command run: exit code (possibly undefined,
hence `Option`, defaulted by `|| 0` in the source) and the accumulated
stdout/stderr stream buffers. -/
structure CmdResult where
  exitCode : Option Int
  stdout : String
  stderr : String

/-- Observable events of the terminal handler: a sandbox invocation for
a given attempt number, or a `setTimeout` delay in milliseconds. -/
inductive TEvent where
  | invoke (attempt : Nat)
  | delay (ms : Nat)
deriving DecidableEq

/-- `const maxRetries = 3` in the terminal handler. -/
def maxRetries : Nat := 3

/-- The retry loop of the terminal handler. The sandbox is a function
from the attempt number to either a thrown error (its string form,
`String(error)`) or a `CmdResult`. `remaining` counts the loop
iterations left (`maxRetries - attempt + 1`); `lastError` and the event
trace are threaded through. Returns the handler's result string and the
trace of invocations and delays. -/
def terminalGo (sandbox : Nat → Except String CmdResult) :
    Nat → Nat → String → List TEvent → String × List TEvent
  | 0, _, lastError, evs =>
    ("FAILED after " ++ toString maxRetries ++ " attempts: " ++ lastError, evs)
  | remaining + 1, attempt, _, evs =>
    let evs := evs ++ [TEvent.invoke attempt]
    match sandbox attempt with
    | Except.ok result =>
      let exitCode : Int := result.exitCode.getD 0
      if exitCode = 0 then
        (strOr result.stdout (strOr result.stderr "Command executed successfully"), evs)
      else
        let body := strOr result.stderr result.stdout
        let lastError := "Exit code " ++ toString exitCode ++ ": " ++ body
        if attempt < maxRetries then
          terminalGo sandbox remaining (attempt + 1) lastError (evs ++ [TEvent.delay 500])
        else
          ("FAILED after " ++ toString maxRetries ++ " attempts: " ++ lastError, evs)
    | Except.error e =>
      if attempt < maxRetries then
        terminalGo sandbox remaining (attempt + 1) e (evs ++ [TEvent.delay 500])
      else
        ("FAILED after " ++ toString maxRetries ++ " attempts: " ++ e, evs)

/-- The terminal tool handler: run the command with up to `maxRetries`
attempts, starting at attempt 1 with an empty `lastError`. -/
def terminal (sandbox : Nat → Except String CmdResult) : String × List TEvent :=
  terminalGo sandbox maxRetries 1 "" []

/-- An attempt outcome counts as a failure for the retry loop: a thrown
error, or a completed run whose (defaulted) exit code is non-zero. -/
def attemptFails : Except String CmdResult → Prop
  | Except.ok r => r.exitCode.getD 0 ≠ 0
  | Except.error _ => True

/-- The error message the handler records for a failed attempt. -/
def lastErrorOf : Except String CmdResult → String
  | Except.ok r =>
    "Exit code " ++ toString (r.exitCode.getD 0) ++ ": " ++ strOr r.stderr r.stdout
  | Except.error e => e

/-! ## The writeFile tool handler, part_001 lines 94-110 -/

/-- The writeFile handler: attempt the sandbox write (its outcome is the
`sandboxWrite` parameter: `Except.error e` models a thrown error with
string form `e`); on success record the file in the shared state
(`files || \x7b\x7d`, then assign the key); on error catch and return an
error string, leaving the state untouched. -/
def writeFile (path content : String) (sandboxWrite : Except String Unit)
    (d : NetworkData) : String × NetworkData :=
  match sandboxWrite with
  | Except.ok _ =>
    let updatedFiles := setFile (d.files.getD []) path content
    ("File " ++ path ++ " written successfully", { d with files := some updatedFiles })
  | Except.error e =>
    ("Error writing file " ++ path ++ ": " ++ e, d)

/-! ## The readFiles tool handler, part_001 lines 118-131 -/

/-- Hex digit for JSON control-character escapes. -/
def hexDigit (n : Nat) : String :=
  String.singleton (if n < 10 then Char.ofNat (48 + n) else Char.ofNat (87 + n))

/-- JSON escaping of one character, as `JSON.stringify` performs it. -/
def jsonEscapeChar (c : Char) : String :=
  if c = '"' then "\\\""
  else if c = '\\' then "\\\\"
  else if c = '\n' then "\\n"
  else if c = '\r' then "\\r"
  else if c = '\t' then "\\t"
  else if c.toNat = 8 then "\\b"
  else if c.toNat = 12 then "\\f"
  else if c.toNat < 32 then "\\u00" ++ hexDigit (c.toNat / 16) ++ hexDigit (c.toNat % 16)
  else String.singleton c

/-- JSON escaping of a string body. -/
def jsonEscape (s : String) : String :=
  String.join (s.toList.map jsonEscapeChar)

/-- `JSON.stringify` of one `\x7b path, content \x7d` record. -/
def jsonPair (p : String × String) : String :=
  "\x7b\"path\":\"" ++ jsonEscape p.1 ++ "\",\"content\":\"" ++ jsonEscape p.2 ++ "\"\x7d"

/-- `JSON.stringify` of the collected array of records. -/
def jsonStringify (l : List (String × String)) : String :=
  "[" ++ String.intercalate "," (l.map jsonPair) ++ "]"

/-- The sequential read loop: read each path in order, collecting
`(path, content)` pairs; the first thrown error aborts the whole loop. -/
def readLoop (rd : String → Except String String) :
    List String → Except String (List (String × String))
  | [] => Except.ok []
  | f :: rest =>
    match rd f with
    | Except.ok content =>
      match readLoop rd rest with
      | Except.ok ps => Except.ok ((f, content) :: ps)
      | Except.error e => Except.error e
    | Except.error e => Except.error e

/-- The readFiles handler: serialize the collected pairs, or catch the
thrown error and return `"Error" + error`. -/
def readFiles (rd : String → Except String String) (files : List String) : String :=
  match readLoop rd files with
  | Except.ok contents => jsonStringify contents
  | Except.error e => "Error" ++ e

/-- Did the read of a path succeed? -/
def isOkE : Except String String → Bool
  | Except.ok _ => true
  | Except.error _ => false

/-- Content of a successful read (junk on error). -/
def okVal : Except String String → String
  | Except.ok c => c
  | Except.error e => e

/-! ## The onResponse lifecycle hook (termination detector), lines 135-157 -/

/-- The state installed by `onResponse` when `network.state.data` is
absent: `completed: false, files: \x7b\x7d` (no summary, no iteration
counter). -/
def respInit : NetworkData :=
  { completed := false, files := some [], summary := none, iterations := none }

/-- Does the message contain a recognized completion marker? The three
`includes` checks of the source. -/
def markerIn (t : String) : Bool :=
  strIncludes t "<task_summary>" || strIncludes t "Task completed" ||
    strIncludes t "Done with the task"

/-- The `onResponse` hook: initialize absent state, then, if the latest
assistant text (`msg`; `none` models an absent text) contains a marker,
record it as the summary and set `completed`. -/
def onResponse (msg : Option String) (st : Option NetworkData) : NetworkData :=
  let d := st.getD respInit
  match msg with
  | some t =>
    if markerIn t then { d with summary := some t, completed := true } else d
  | none => d

/-! ## The router and the network run loop, lines 160-189 -/

/-- The state installed by the router when `network.state.data` is
absent: `completed: false, files: \x7b\x7d, iterations: 0`. -/
def routerInit : NetworkData :=
  { completed := false, files := some [], summary := none, iterations := some 0 }

/-- The router: initialize absent state, increment `iterations`
(`(iterations || 0) + 1`), stop (`false`) when completed or when the
incremented counter has reached 15, else continue (`true`) with the
code agent. Returns the updated state and the continue decision. -/
def router (st : Option NetworkData) : NetworkData × Bool :=
  let d0 := st.getD routerInit
  let d := { d0 with iterations := some (d0.iterations.getD 0 + 1) }
  if d.completed then (d, false)
  else if 15 ≤ d.iterations.getD 0 then (d, false)
  else (d, true)

/-- One successful-or-failed sandbox file write requested by the agent
during a turn. -/
structure WriteCall where
  path : String
  content : String
  res : Except String Unit

/-- What the agent does in one invocation: its writeFile tool calls (in
order) and its final assistant text, if any. The terminal and readFiles
tools do not touch the shared state, so they do not appear here. -/
structure AgentTurn where
  writes : List WriteCall
  message : Option String

/-- Apply a turn's writeFile calls to the shared state. -/
def applyWrites (ws : List WriteCall) (d : NetworkData) : NetworkData :=
  ws.foldl (fun d w => (writeFile w.path w.content w.res d).2) d

/-- Execute one agent turn on the shared state: the tool mutations
happen first, then the `onResponse` hook runs on the final text. -/
def execTurn (t : AgentTurn) (d : NetworkData) : NetworkData :=
  onResponse t.message (some (applyWrites t.writes d))

/-- The network run loop: before each pass the router is consulted; if
it returns the agent, the agent (behaviour indexed by the number of
invocations so far) runs one turn; otherwise the run ends. `fuel` is a
structural-recursion bound; the router's own 15-cap stops every run
well within the fuel used by `runNetwork`. Returns the number of agent
invocations and the final state. -/
def runLoop (agent : Nat → AgentTurn) : Nat → Nat → Option NetworkData → Nat × NetworkData
  | 0, inv, st => (inv, st.getD routerInit)
  | fuel + 1, inv, st =>
    let rd := router st
    if rd.2 then runLoop agent fuel (inv + 1) (some (execTurn (agent inv) rd.1))
    else (inv, rd.1)

/-- A full network run: start with uninitialized state and no
invocations. Fuel 16 covers the at most 15 router consultations the
15-cap permits. -/
def runNetwork (agent : Nat → AgentTurn) : Nat × NetworkData :=
  runLoop agent 16 0 none

/-- An agent turn contains no completion marker: either no final text,
or a text in which no marker occurs. -/
def noMark (t : AgentTurn) : Bool :=
  match t.message with
  | none => true
  | some s => !(markerIn s)

/-- An agent that never writes and never speaks: in particular it never
emits a completion marker. -/
def quietAgent : Nat → AgentTurn :=
  fun _ => { writes := [], message := none }

/-! ## Frame lemmas for the tool handlers -/

/-- A writeFile call changes only the `files` field of the state. -/
theorem writeFile_state_frame (p c : String) (r : Except String Unit) (d : NetworkData) :
    ((writeFile p c r d).2).completed = d.completed ∧
    ((writeFile p c r d).2).summary = d.summary ∧
    ((writeFile p c r d).2).iterations = d.iterations := by
  cases r <;> simp [writeFile]

/-- A turn's write sequence changes only the `files` field. -/
theorem applyWrites_frame (ws : List WriteCall) (d : NetworkData) :
    (applyWrites ws d).completed = d.completed ∧
    (applyWrites ws d).summary = d.summary ∧
    (applyWrites ws d).iterations = d.iterations := by
  induction ws generalizing d with
  | nil => simp [applyWrites]
  | cons w ws ih =>
    have hw := writeFile_state_frame w.path w.content w.res d
    have := ih (writeFile w.path w.content w.res d).2
    simp only [applyWrites, List.foldl_cons] at *
    exact ⟨by rw [this.1, hw.1], by rw [this.2.1, hw.2.1], by rw [this.2.2, hw.2.2]⟩

/-- The onResponse hook never changes the iteration counter. -/
theorem onResponse_iterations (msg : Option String) (d : NetworkData) :
    (onResponse msg (some d)).iterations = d.iterations := by
  cases msg with
  | none => simp [onResponse]
  | some t =>
    by_cases h : markerIn t = true <;> simp [onResponse, h]

/-- A turn whose message holds no marker preserves `completed` and
`iterations`. -/
theorem execTurn_quiet (t : AgentTurn) (d : NetworkData) (h : noMark t = true) :
    (execTurn t d).completed = d.completed ∧ (execTurn t d).iterations = d.iterations := by
  have hw := applyWrites_frame t.writes d
  cases hm : t.message with
  | none => simpa [execTurn, onResponse, hm] using ⟨hw.1, hw.2.2⟩
  | some s =>
    have hs : markerIn s = false := by simpa [noMark, hm] using h
    simpa [execTurn, onResponse, hm, hs] using ⟨hw.1, hw.2.2⟩

/-- Any turn preserves the iteration counter. -/
theorem execTurn_iterations (t : AgentTurn) (d : NetworkData) :
    (execTurn t d).iterations = d.iterations := by
  have hw := applyWrites_frame t.writes d
  rw [execTurn, onResponse_iterations, hw.2.2]

/-! ## Claim theorems: detector and writeFile -/

/-- Claim C4: after an agent turn whose latest textual message contains
the structured tag or either plain-English completion phrase (by
case-sensitive substring containment), the onResponse detector records
the full message text as the summary and sets `completed` to true. -/
theorem detector_marks (st : Option NetworkData) (t : String) (h : markerIn t = true) :
    (onResponse (some t) st).summary = some t ∧ (onResponse (some t) st).completed = true := by
  cases st <;> simp [onResponse, h]

/-- Witness for C4 at the concrete message containing the tag. -/
theorem detector_marks_witness :
    markerIn "<task_summary> shipped" = true ∧
    ((onResponse (some "<task_summary> shipped") none).summary =
        some "<task_summary> shipped" ∧
      (onResponse (some "<task_summary> shipped") none).completed = true) :=
  ⟨by decide, detector_marks none "<task_summary> shipped" (by decide)⟩

/-- Claim C9: a turn whose latest message (possibly absent) contains no
recognized marker leaves the state exactly as it was, except that an
uninitialized state becomes `completed = false` with an empty files
map. -/
theorem detector_frame (msg : Option String) (st : Option NetworkData)
    (h : ∀ t, msg = some t → markerIn t = false) :
    onResponse msg st = st.getD respInit := by
  cases msg with
  | none => cases st <;> simp [onResponse]
  | some t =>
    have ht : markerIn t = false := h t rfl
    cases st <;> simp [onResponse, ht]

/-- Witness for C9 at a concrete markerless message and initialized state. -/
theorem detector_frame_witness :
    onResponse (some "still working on it") (some routerInit) = routerInit := by
  have h := detector_frame (some "still working on it") (some routerInit)
    (by intro t ht; injection ht with h2; rw [← h2]; decide)
  simpa using h

/-- Lookup in the files map after an assignment of `p` finds the value
just assigned. -/
theorem getFile_setFile (fs : List (String × String)) (p c : String) :
    getFile (setFile fs p c) p = some c := by
  induction fs with
  | nil => simp [setFile, getFile]
  | cons qv rest ih =>
    obtain ⟨q, v⟩ := qv
    by_cases h : q = p <;> simp [setFile, getFile, h, ih]

/-- Claim C7: after any sequence of successful writeFile calls to the
same path, the content recorded in the shared files map for that path
is the content of the last write (full overwrite of earlier writes). -/
theorem lastWriteWins (d : NetworkData) (p : String) (cs : List String) (c : String) :
    getFile
      ((((cs ++ [c]).foldl (fun d x => (writeFile p x (Except.ok ()) d).2) d)).files.getD [])
      p = some c := by
  rw [List.foldl_append]
  simp [List.foldl, writeFile, getFile_setFile]

/-- Claim C8: when the underlying sandbox write throws, the writeFile
handler returns an error string (it does not throw) and leaves the
shared state, in particular the files map, completely unchanged. -/
theorem writeFile_error (p c e : String) (d : NetworkData) :
    writeFile p c (Except.error e) d = ("Error writing file " ++ p ++ ": " ++ e, d) := by
  simp [writeFile]

/-! ## Claim theorems: the iteration loop -/

/-- Claim C3: from any point of a run at which `completed` is true, the
rest of the run performs no further agent invocation, `completed` stays
true, and `summary` and `files` keep their current values; the router
merely increments the iteration counter once and stops. -/
theorem completed_freezes (agent : Nat → AgentTurn) (fuel inv : Nat) (d : NetworkData)
    (h : d.completed = true) :
    (runLoop agent (fuel + 1) inv (some d)).1 = inv ∧
    (runLoop agent (fuel + 1) inv (some d)).2.completed = true ∧
    (runLoop agent (fuel + 1) inv (some d)).2.summary = d.summary ∧
    (runLoop agent (fuel + 1) inv (some d)).2.files = d.files := by
  simp [runLoop, router, h]

/-- A concrete completed state used to witness C3. -/
def doneState : NetworkData :=
  { completed := true, files := some [("app/page.tsx", "content")],
    summary := some "<task_summary> built", iterations := some 3 }

/-- Witness for C3 at a concrete completed state, five invocations in. -/
theorem completed_freezes_witness :
    doneState.completed = true ∧
    ((runLoop quietAgent 1 5 (some doneState)).1 = 5 ∧
      (runLoop quietAgent 1 5 (some doneState)).2.completed = true ∧
      (runLoop quietAgent 1 5 (some doneState)).2.summary = doneState.summary ∧
      (runLoop quietAgent 1 5 (some doneState)).2.files = doneState.files) :=
  ⟨rfl, completed_freezes quietAgent 0 5 doneState rfl⟩

/-- The router on a state with `completed` set: it increments the
counter and stops. -/
theorem router_stop_completed (d : NetworkData) (hc : d.completed = true) :
    router (some d) = ({ d with iterations := some (d.iterations.getD 0 + 1) }, false) := by
  simp [router, hc]

/-- The router at the iteration cap: it increments the counter past 15
and stops without invoking the agent. -/
theorem router_stop_cap (d : NetworkData) (inv : Nat) (hc : d.completed = false)
    (hd : d.iterations = some inv) (h15 : 15 ≤ inv + 1) :
    router (some d) = ({ d with iterations := some (inv + 1) }, false) := by
  simp [router, hc, hd, h15]

/-- The router below the cap on an uncompleted state: it increments the
counter and continues with the agent. -/
theorem router_continue (d : NetworkData) (inv : Nat) (hc : d.completed = false)
    (hd : d.iterations = some inv) (h15 : ¬ 15 ≤ inv + 1) :
    router (some d) = ({ d with iterations := some (inv + 1) }, true) := by
  simp [router, hc, hd, h15]

/-- One loop pass below the cap on an uncompleted state: the agent is
invoked once and the loop recurses. -/
theorem runLoop_cont_step (agent : Nat → AgentTurn) (fuel inv : Nat) (d : NetworkData)
    (hc : d.completed = false) (hd : d.iterations = some inv) (h15 : ¬ 15 ≤ inv + 1) :
    runLoop agent (fuel + 1) inv (some d) =
      runLoop agent fuel (inv + 1)
        (some (execTurn (agent inv) { d with iterations := some (inv + 1) })) := by
  rw [runLoop, router_continue d inv hc hd h15]
  rfl

/-- One loop pass at the cap on an uncompleted state: the run ends with
no further invocation. -/
theorem runLoop_cap_stop (agent : Nat → AgentTurn) (fuel inv : Nat) (d : NetworkData)
    (hc : d.completed = false) (hd : d.iterations = some inv) (h15 : 15 ≤ inv + 1) :
    runLoop agent (fuel + 1) inv (some d) = (inv, { d with iterations := some (inv + 1) }) := by
  rw [runLoop, router_stop_cap d inv hc hd h15]
  rfl

/-- The first loop pass of a fresh run: the router initializes the
state, sets the counter to 1, and invokes the agent a first time. -/
theorem runNetwork_first (agent : Nat → AgentTurn) :
    runNetwork agent =
      runLoop agent 15 1 (some (execTurn (agent 0) { routerInit with iterations := some 1 })) := by
  have hr : router none = ({ routerInit with iterations := some 1 }, true) := by
    simp [router, routerInit]
  rw [runNetwork, show (16 : Nat) = 15 + 1 from rfl, runLoop, hr]
  rfl

/-- Invariant bound on the run loop: entering a pass with `inv` agent
invocations so far and the state counter equal to `inv`, the final
number of invocations never exceeds `max inv 14`. -/
theorem runLoop_bound (agent : Nat → AgentTurn) :
    ∀ fuel inv d, d.iterations = some inv →
      (runLoop agent fuel inv (some d)).1 ≤ max inv 14 := by
  intro fuel
  induction fuel with
  | zero => intro inv d _; simp [runLoop]
  | succ fuel ih =>
    intro inv d hd
    by_cases hc : d.completed = true
    · rw [runLoop, router_stop_completed d hc]
      simp
    · have hc' : d.completed = false := by simpa using hc
      by_cases h15 : 15 ≤ inv + 1
      · rw [runLoop_cap_stop agent fuel inv d hc' hd h15]
        simp
      · rw [runLoop_cont_step agent fuel inv d hc' hd h15]
        have hiter : (execTurn (agent inv) { d with iterations := some (inv + 1) }).iterations
            = some (inv + 1) := by
          rw [execTurn_iterations]
        have hb := ih (inv + 1) _ hiter
        have hmax : max (inv + 1) 14 ≤ max inv 14 := by
          have h14 : inv + 1 ≤ 14 := by omega
          rw [Nat.max_eq_right h14]
          exact le_max_right _ _
        exact le_trans hb hmax

/-- Claim C2: for every agent behaviour, a network run invokes the
agent at most 15 times (indeed at most 14). -/
theorem loop_cap (agent : Nat → AgentTurn) : (runNetwork agent).1 ≤ 15 := by
  rw [runNetwork_first]
  have hiter : (execTurn (agent 0) { routerInit with iterations := some 1 }).iterations
      = some 1 := by
    rw [execTurn_iterations]
  have hb := runLoop_bound agent 15 1 _ hiter
  exact le_trans hb (by decide)

/-- A markerless run never completes and always reaches the cap:
entering a pass with `inv` invocations so far (1 ≤ inv ≤ 14), counter
equal to `inv`, `completed` still false, and fuel for the remaining
passes, the run ends with exactly 14 invocations and `completed`
false. -/
theorem runLoop_quiet (agent : Nat → AgentTurn) (hq : ∀ n, noMark (agent n) = true) :
    ∀ fuel inv d, d.completed = false → d.iterations = some inv →
      1 ≤ inv → inv ≤ 14 → 15 - inv ≤ fuel →
      (runLoop agent fuel inv (some d)).1 = 14 ∧
      (runLoop agent fuel inv (some d)).2.completed = false := by
  intro fuel
  induction fuel with
  | zero => intro inv d _ _ h1 h14 hf; omega
  | succ fuel ih =>
    intro inv d hc hd h1 h14 hf
    by_cases h15 : 15 ≤ inv + 1
    · have hinv : inv = 14 := by omega
      subst hinv
      rw [runLoop_cap_stop agent fuel 14 d hc hd h15]
      exact ⟨rfl, hc⟩
    · rw [runLoop_cont_step agent fuel inv d hc hd h15]
      have hqt := execTurn_quiet (agent inv) { d with iterations := some (inv + 1) } (hq inv)
      have hcomp : (execTurn (agent inv) { d with iterations := some (inv + 1) }).completed
          = false := by
        rw [hqt.1]
        exact hc
      have hiter : (execTurn (agent inv) { d with iterations := some (inv + 1) }).iterations
          = some (inv + 1) := by
        rw [execTurn_iterations]
      exact ih (inv + 1) _ hcomp hiter (by omega) (by omega) (by omega)

/-- Claim C1 (amended): when the agent never emits a completion marker,
the run ends with `completed = false` and the loop has invoked the
agent exactly 14 times (the router increments its counter before
comparing it with 15, so the 15th consultation declines). -/
theorem quiet_run_fourteen (agent : Nat → AgentTurn) (hq : ∀ n, noMark (agent n) = true) :
    (runNetwork agent).1 = 14 ∧ (runNetwork agent).2.completed = false := by
  rw [runNetwork_first]
  have hqt := execTurn_quiet (agent 0) { routerInit with iterations := some 1 } (hq 0)
  have hcomp : (execTurn (agent 0) { routerInit with iterations := some 1 }).completed
      = false := by
    rw [hqt.1]
    rfl
  have hiter : (execTurn (agent 0) { routerInit with iterations := some 1 }).iterations
      = some 1 := by
    rw [execTurn_iterations]
  exact runLoop_quiet agent hq 15 1 _ hcomp hiter (by omega) (by omega) (by omega)

/-- Witness for the amended C1: the silent agent is invoked exactly 14
times and the run ends uncompleted. -/
theorem quiet_run_fourteen_witness :
    (runNetwork quietAgent).1 = 14 ∧ (runNetwork quietAgent).2.completed = false :=
  quiet_run_fourteen quietAgent (fun _ => rfl)

/-- Counterexample to C1 as stated: the silent agent never emits a
marker, yet the run does not invoke the agent 15 times (it stops at
14), though it does end with `completed = false`. -/
theorem quiet_run_counterexample :
    (runNetwork quietAgent).1 ≠ 15 ∧ (runNetwork quietAgent).2.completed = false := by
  decide

/-! ## Claim theorems: the terminal executor -/

/-- The exhaustion message prefix evaluates to its literal form. -/
theorem failedPrefix (x : String) :
    "FAILED after " ++ toString (3 : Nat) ++ " attempts: " ++ x =
      "FAILED after 3 attempts: " ++ x := rfl

/-- A failing attempt is either a thrown error or a non-zero exit. -/
theorem attemptFails_cases (x : Except String CmdResult) (h : attemptFails x) :
    (∃ s, x = Except.error s) ∨ (∃ r, x = Except.ok r ∧ r.exitCode.getD 0 ≠ 0) := by
  cases x with
  | ok r => exact Or.inr ⟨r, rfl, h⟩
  | error s => exact Or.inl ⟨s, rfl⟩

/-- Claim C5: when every attempt fails (non-zero exit or thrown error),
the terminal handler performs exactly 3 sandbox invocations with one
500-unit delay between consecutive attempts, and returns (rather than
throws) "FAILED after 3 attempts: " followed by the last error. -/
theorem terminal_all_fail (sandbox : Nat → Except String CmdResult)
    (h : ∀ n, attemptFails (sandbox n)) :
    terminal sandbox =
      ("FAILED after 3 attempts: " ++ lastErrorOf (sandbox 3),
        [TEvent.invoke 1, TEvent.delay 500, TEvent.invoke 2, TEvent.delay 500,
          TEvent.invoke 3]) := by
  rcases attemptFails_cases _ (h 1) with ⟨s1, e1⟩ | ⟨r1, e1, hc1⟩ <;>
    rcases attemptFails_cases _ (h 2) with ⟨s2, e2⟩ | ⟨r2, e2, hc2⟩ <;>
    rcases attemptFails_cases _ (h 3) with ⟨s3, e3⟩ | ⟨r3, e3, hc3⟩ <;>
    simp [terminal, terminalGo, maxRetries, e1, e2, e3, lastErrorOf, failedPrefix, *]

/-- A command whose three attempts all exit with code 1 and produce no
output on either stream. -/
def failSandbox : Nat → Except String CmdResult :=
  fun _ => Except.ok { exitCode := some 1, stdout := "", stderr := "" }

/-- Witness for C5 at the always-exit-1 command with empty output: the
result is exactly "FAILED after 3 attempts: Exit code 1: ". -/
theorem terminal_all_fail_witness :
    terminal failSandbox =
      ("FAILED after 3 attempts: Exit code 1: ",
        [TEvent.invoke 1, TEvent.delay 500, TEvent.invoke 2, TEvent.delay 500,
          TEvent.invoke 3]) := by
  have h := terminal_all_fail failSandbox (fun n => by simp [failSandbox, attemptFails])
  rw [h]
  rfl

/-- Claim C6: when the first attempt exits with code 0, the terminal
handler performs exactly one sandbox invocation (no delays) and returns
stdout if non-empty, else stderr if non-empty, else the generic success
message. -/
theorem terminal_first_success (sandbox : Nat → Except String CmdResult) (r : CmdResult)
    (e1 : sandbox 1 = Except.ok r) (h0 : r.exitCode.getD 0 = 0) :
    (terminal sandbox).2 = [TEvent.invoke 1] ∧
    (r.stdout ≠ "" → (terminal sandbox).1 = r.stdout) ∧
    (r.stdout = "" → r.stderr ≠ "" → (terminal sandbox).1 = r.stderr) ∧
    (r.stdout = "" → r.stderr = "" → (terminal sandbox).1 = "Command executed successfully") := by
  have ht : terminal sandbox =
      (strOr r.stdout (strOr r.stderr "Command executed successfully"), [TEvent.invoke 1]) := by
    simp [terminal, terminalGo, maxRetries, e1, h0]
  rw [ht]
  refine ⟨rfl, ?_, ?_, ?_⟩
  · intro hs
    simp [strOr, hs]
  · intro hs he
    simp [strOr, hs, he]
  · intro hs he
    simp [strOr, hs, he]

/-- A command succeeding immediately with stdout "out". -/
def okSandbox : Nat → Except String CmdResult :=
  fun _ => Except.ok { exitCode := some 0, stdout := "out", stderr := "" }

/-- Witness for C6 at a first-attempt success with non-empty stdout. -/
theorem terminal_first_success_witness :
    (terminal okSandbox).2 = [TEvent.invoke 1] ∧ (terminal okSandbox).1 = "out" := by
  have h := terminal_first_success okSandbox
    { exitCode := some 0, stdout := "out", stderr := "" } rfl rfl
  exact ⟨h.1, h.2.1 (by decide)⟩

/-! ## Claim theorems: the readFiles handler -/

/-- When every requested path reads successfully, the loop collects the
pairs in the order the paths were given. -/
theorem readLoop_ok (rd : String → Except String String) :
    ∀ fs, (∀ f ∈ fs, isOkE (rd f) = true) →
      readLoop rd fs = Except.ok (fs.map fun f => (f, okVal (rd f))) := by
  intro fs
  induction fs with
  | nil => intro _; simp [readLoop]
  | cons f rest ih =>
    intro h
    have hf := h f (by simp)
    cases e : rd f with
    | ok c =>
      have hrest := ih (fun g hg => h g (by simp [hg]))
      simp [readLoop, e, hrest, okVal]
    | error s =>
      rw [e] at hf
      simp [isOkE] at hf

/-- When some requested path fails, the loop aborts with a thrown
error. -/
theorem readLoop_err (rd : String → Except String String) :
    ∀ fs, (∃ f ∈ fs, isOkE (rd f) = false) →
      ∃ e, readLoop rd fs = Except.error e := by
  intro fs
  induction fs with
  | nil =>
    rintro ⟨f, hf, _⟩
    simp at hf
  | cons f rest ih =>
    rintro ⟨g, hg, hgf⟩
    cases e : rd f with
    | error s => exact ⟨s, by simp [readLoop, e]⟩
    | ok c =>
      have hrest : ∃ g ∈ rest, isOkE (rd g) = false := by
        rcases List.mem_cons.mp hg with hh | hh
        · rw [hh, e] at hgf
          simp [isOkE] at hgf
        · exact ⟨g, hh, hgf⟩
      obtain ⟨er, her⟩ := ih hrest
      exact ⟨er, by simp [readLoop, e, her]⟩

/-- Claim C10: when every requested path reads successfully, the
readFiles handler returns the JSON serialization of the (path, content)
pairs in exactly the order the paths were given; when any path fails,
it returns a single "Error"-prefixed string and no partial list. -/
theorem readFiles_spec (rd : String → Except String String) (fs : List String) :
    ((∀ f ∈ fs, isOkE (rd f) = true) →
      readFiles rd fs = jsonStringify (fs.map fun f => (f, okVal (rd f)))) ∧
    ((∃ f ∈ fs, isOkE (rd f) = false) → ∃ e, readFiles rd fs = "Error" ++ e) := by
  constructor
  · intro h
    simp [readFiles, readLoop_ok rd fs h]
  · intro h
    obtain ⟨e, he⟩ := readLoop_err rd fs h
    exact ⟨e, by simp [readFiles, he]⟩

/-- A sandbox reader that succeeds on every path. -/
def okReader : String → Except String String :=
  fun f => Except.ok ("v" ++ f)

/-- Witness for C10 at two concrete paths: the serialized pair list in
request order. -/
theorem readFiles_spec_witness :
    readFiles okReader ["a", "b"] =
      "[\x7b\"path\":\"a\",\"content\":\"va\"\x7d,\x7b\"path\":\"b\",\"content\":\"vb\"\x7d]" := by
  have h := (readFiles_spec okReader ["a", "b"]).1 (fun f _ => rfl)
  rw [h]
  rfl
